import Mathlib

/-!
Verification of the AgriViewer request-parsing / normalization / insight pipeline.

Shallow embedding of:
  * src/prompt_handler.py  (PromptHandler.parse_user_request, _validate_parsing)
  * src/results_parser.py  (ResultsParser.parse_cv_results and helpers)
  * src/llm_engine.py      (APILLMEngine._check_data_requirements, _clean_response,
                            chat_complete, analyze_results)
  * src/main.py            (MonitoredWorkflow.generate_llm_insights follow-up branch,
                            run_monitored_session outer exception clause)
  * src/streamlit_app.py   (StreamlitUI.process_message)

Conventions of the embedding:
  * A JSON extraction reply is modelled as a record of optional fields; a field is
    `none` when the key is absent from the JSON object.  Keys present with a JSON
    null value are not distinguished from absent keys (the handler treats them the
    same for crop_type; no verified property depends on the distinction elsewhere).
  * pandas DataFrames are modelled as a row count plus an ordered list of named
    columns; cells are calendar dates (days after the 2024-01-01 anchor), numbers
    (modelled as rationals instead of IEEE floats; no verified property depends on
    rounding), or nulls (NaN).
  * numpy random draws are driven by an oracle `rng : Nat -> Rat`; the draw
    np.random.uniform(a, b) at oracle index i is a + (b - a) * fract (rng i),
    which lands in the interval when a < b.  Distinct call sites use distinct
    oracle indices.
  * Python exceptions are modelled with `Except`: a raising computation is an
    oracle value `Except.error msg`, and a try/except block is a `match`.
  * Python str.strip is modelled by String.trim (the source strings involved are
    ASCII; exotic unicode whitespace is outside the model).
-/

namespace AgriViewer

/-! ## Strings

Python string operations, implemented by structural recursion over the
character list (so that closed statements evaluate inside the kernel). -/

/-- Python substring containment `pat in s`. -/
def strContains (s pat : String) : Bool :=
  (List.range (s.toList.length + 1)).any (fun i => pat.toList.isPrefixOf (s.toList.drop i))

/-- The whitespace characters stripped by str.strip on the ASCII strings of this
code base (Python also strips some further unicode whitespace, which no string
here contains). -/
def isWsChar (c : Char) : Bool := c == ' ' || c == '\t' || c == '\n' || c == '\r'

/-- Python str.strip (see module conventions). -/
def pyStrip (s : String) : String :=
  String.mk (((s.toList.dropWhile isWsChar).reverse.dropWhile isWsChar).reverse)

/-- Python str.lower, on the ASCII strings this code base handles. -/
def pyLower (s : String) : String := String.mk (s.toList.map Char.toLower)

/-- One pass of Python str.split(sep) with non-empty sep: fuel bounds the
recursion (it is called with more fuel than characters). -/
def splitSeg (sep : List Char) (acc : List Char) : Nat → List Char → List (List Char)
  | 0, cs => [acc.reverse ++ cs]
  | _ + 1, [] => [acc.reverse]
  | fuel + 1, c :: rest =>
    if sep ≠ [] ∧ sep.isPrefixOf (c :: rest) then
      acc.reverse :: splitSeg sep [] fuel ((c :: rest).drop sep.length)
    else
      splitSeg sep (c :: acc) fuel rest

/-- Python str.split(sep) for non-empty sep (also the semantics of
String.splitOn on such separators). -/
def pySplit (s sep : String) : List String :=
  (splitSeg sep.toList [] (s.toList.length + 1) s.toList).map String.mk

/-- Python str.replace(old, new) with non-empty old: fuel-bounded replacement of
every non-overlapping occurrence, left to right. -/
def replaceSeg (old new : List Char) : Nat → List Char → List Char
  | 0, cs => cs
  | _ + 1, [] => []
  | fuel + 1, c :: rest =>
    if old ≠ [] ∧ old.isPrefixOf (c :: rest) then
      new ++ replaceSeg old new fuel ((c :: rest).drop old.length)
    else
      c :: replaceSeg old new fuel rest

/-- Python str.replace(old, new) for non-empty old. -/
def pyReplace (s old new : String) : String :=
  String.mk (replaceSeg old.toList new.toList (s.toList.length + 1) s.toList)

/-- Join a list of strings with a separator (Python sep.join). -/
def joinSep (sep : String) : List String → String
  | [] => ""
  | [x] => x
  | x :: rest => x ++ sep ++ joinSep sep rest

/-- Decidable equality for Except values, used to state evaluations of
raising computations. -/
instance (ε α : Type) [DecidableEq ε] [DecidableEq α] : DecidableEq (Except ε α) := fun x y =>
  match x, y with
  | Except.ok a, Except.ok b =>
    if h : a = b then isTrue (by rw [h]) else isFalse (fun hc => h (Except.ok.injEq a b ▸ hc))
  | Except.ok _, Except.error _ => isFalse (fun hc => Except.noConfusion hc)
  | Except.error _, Except.ok _ => isFalse (fun hc => Except.noConfusion hc)
  | Except.error e, Except.error f =>
    if h : e = f then isTrue (by rw [h]) else isFalse (fun hc => h (Except.error.injEq e f ▸ hc))

/-! ## Prompt handler (src/prompt_handler.py) -/

/-- The dataclass ParsedRequest of src/prompt_handler.py.  The open mapping
additional_context is modelled as an association list of strings. -/
structure ParsedRequest where
  location : String
  date_range : Option String
  metrics : List String
  crop_type : Option String
  additional_context : List (String × String)
deriving DecidableEq

/-- A decoded JSON extraction reply; a field is `none` when the key is absent. -/
structure ExtractReply where
  error : Option String := none
  location : Option String := none
  date_range : Option String := none
  metrics : Option (List String) := none
  crop_type : Option String := none
  additional_context : Option (List (String × String)) := none
deriving DecidableEq

/-- PromptHandler.default_metrics (set in __init__). -/
def default_metrics : List String := ["NDVI", "soil_moisture", "crop_health"]

/-- The valid_metrics vocabulary of PromptHandler._validate_parsing.  The source
holds these in a Python set; the join order used in the clarification message is
unspecified there, so this model fixes the declaration order. -/
def valid_metrics : List String :=
  ["NDVI", "soil_moisture", "crop_health", "growth_stage", "pest_risk"]

/-- PromptHandler._validate_parsing: `some msg` is the str return (invalid),
`none` is the dict return (valid). -/
def validate_parsing (parsed : ExtractReply) : Option String :=
  match parsed.location with
  | none => some "I need a specific location to analyze. Where should I look?"
  | some loc =>
    if pyStrip loc = "" then
      some "I need a specific location to analyze. Where should I look?"
    else
      match parsed.metrics with
      | none => none
      | some ms =>
        let invalid_metrics := ms.filter (fun m => !(valid_metrics.contains m))
        if invalid_metrics.isEmpty then none
        else some ("I can only analyze these metrics: " ++
          joinSep ", " valid_metrics ++ ". Which would you like to use?")

/-- The two possible results of parse_user_request: a ParsedRequest or an
InputRequiredEvent carrying a clarification text. -/
inductive ParseOutcome where
  | parsed (r : ParsedRequest)
  | inputRequired (pfx : String)
deriving DecidableEq

/-- PromptHandler.parse_user_request, after the LLM reply has been received:
the argument is the decoded reply, `none` when json.loads raised
(the source clarification text for that branch uses the contractions
could-not and you-would; they are written out here because this model keeps to
plain ASCII words). -/
def parse_user_request (reply : Option ExtractReply) : ParseOutcome :=
  match reply with
  | none => ParseOutcome.inputRequired
      "I could not understand that completely. Could you rephrase your request with a specific location and what you would like to analyze?"
  | some parsed =>
    match parsed.error with
    | some err => ParseOutcome.inputRequired
        ("I need some clarification: " ++ err ++ ". Could you please provide more details?")
    | none =>
      match validate_parsing parsed with
      | some msg => ParseOutcome.inputRequired ("Could you please clarify: " ++ msg)
      | none =>
        ParseOutcome.parsed
          { location := parsed.location.getD ""
            date_range := some (parsed.date_range.getD "last 30 days")
            metrics := parsed.metrics.getD default_metrics
            crop_type := parsed.crop_type
            additional_context := parsed.additional_context.getD [] }

/-- Key present with a non-blank (after stripping) location string. -/
def hasNonBlankLocation (r : ExtractReply) : Bool :=
  match r.location with
  | none => false
  | some s => !(pyStrip s == "")

/-- Every entry of the metrics list (when the key is present) is in the vocabulary. -/
def metricsAllValid (r : ExtractReply) : Bool :=
  match r.metrics with
  | none => true
  | some ms => ms.all (fun m => valid_metrics.contains m)

/-- Some entry of the metrics list is outside the vocabulary. -/
def hasInvalidMetric (r : ExtractReply) : Bool :=
  match r.metrics with
  | none => false
  | some ms => ms.any (fun m => !(valid_metrics.contains m))

/-! ## Results parser (src/results_parser.py) -/

/-- A cell of a pandas DataFrame (see module conventions). -/
inductive Cell where
  | date (d : Nat)
  | num (q : ℚ)
  | null
deriving DecidableEq

/-- Whether a cell is a null (NaN) value. -/
def Cell.isNull : Cell → Bool
  | Cell.null => true
  | _ => false

/-- A pandas DataFrame: a row count and an ordered list of named columns.
A well-formed frame has every column of length nrows; the operations below
preserve that. -/
structure DF where
  nrows : Nat
  cols : List (String × List Cell)
deriving DecidableEq

/-- Column lookup by name (pandas df[name], first match). -/
def getColList (cs : List (String × List Cell)) (name : String) : Option (List Cell) :=
  (cs.find? (fun p => p.1 == name)).map Prod.snd

/-- Column lookup on a frame. -/
def getCol (df : DF) (name : String) : Option (List Cell) :=
  getColList df.cols name

/-- The draw np.random.uniform a b, driven by one oracle value x. -/
def uniform (a b x : ℚ) : ℚ := a + (b - a) * (x - (⌊x⌋ : ℚ))

/-- pd.date_range starting at the 2024-01-01 anchor with n periods. -/
def dateCol (n : Nat) : List Cell := (List.range n).map (fun i => Cell.date i)

/-- A column of n independent uniform a b draws, at oracle indices base, base+1, ... -/
def uniformCol (a b : ℚ) (rng : Nat → ℚ) (base n : Nat) : List Cell :=
  (List.range n).map (fun i => Cell.num (uniform a b (rng (base + i))))

/-- ResultsParser._create_default_df: the 10-row synthetic table. -/
def create_default_df (rng : Nat → ℚ) : DF :=
  { nrows := 10
    cols := [("date", dateCol 10),
             ("ndvi", uniformCol (3/10) (8/10) rng 0 10),
             ("soil_moisture", uniformCol 20 40 rng 10 10),
             ("health_score", uniformCol 60 90 rng 20 10)] }

/-- The required_columns list of _validate_and_clean_df. -/
def required_columns : List String := ["date", "ndvi", "soil_moisture", "health_score"]

/-- The three numeric columns targeted by the fillna dict. -/
def numeric_required : List String := ["ndvi", "soil_moisture", "health_score"]

/-- The column synthesized for a missing required column: a date range for date,
np.random.uniform 0 100 draws otherwise (k tags the call site for oracle indices). -/
def synthCol (rng : Nat → ℚ) (k n : Nat) (name : String) : List Cell :=
  if name = "date" then dateCol n
  else (List.range n).map (fun i => Cell.num (uniform 0 100 (rng (100 * k + i))))

/-- One iteration of the loop `for col in required_columns: if col not in df.columns:
df[col] = ...` — pandas appends the new column after the existing ones. -/
def addCol (rng : Nat → ℚ) (n k : Nat) (name : String)
    (cs : List (String × List Cell)) : List (String × List Cell) :=
  if (cs.find? (fun p => p.1 == name)).isSome then cs
  else cs ++ [(name, synthCol rng k n name)]

/-- The four iterations of that loop, in source order. -/
def addMissingCols (rng : Nat → ℚ) (df : DF) : DF :=
  { nrows := df.nrows
    cols := addCol rng df.nrows 3 "health_score"
            (addCol rng df.nrows 2 "soil_moisture"
            (addCol rng df.nrows 1 "ndvi"
            (addCol rng df.nrows 0 "date" df.cols))) }

/-- The numeric (non-null number) cells of a column. -/
def numCells (cells : List Cell) : List ℚ :=
  cells.filterMap (fun c => match c with | Cell.num q => some q | _ => none)

/-- pandas Series.mean(): skips nulls, NaN (here `none`) when no numeric value exists. -/
def colMean (cells : List Cell) : Option ℚ :=
  let xs := numCells cells
  if xs.isEmpty then none else some (xs.sum / (xs.length : ℚ))

/-- Series.fillna with the column mean: nulls are replaced by the mean; when the
mean is NaN (column has no numeric value) the fill is a no-op. -/
def fillCol (cells : List Cell) : List Cell :=
  match colMean cells with
  | none => cells
  | some m => cells.map (fun c => match c with | Cell.null => Cell.num m | c => c)

/-- The per-column action of the fillna dict of _validate_and_clean_df: only the
three numeric required columns are filled. -/
def fillUp (name : String) (cells : List Cell) : List Cell :=
  if name ∈ numeric_required then fillCol cells else cells

/-- The df.fillna call of _validate_and_clean_df. -/
def fillnaRequired (df : DF) : DF :=
  { nrows := df.nrows
    cols := df.cols.map (fun c => (c.1, fillUp c.1 c.2)) }

/-- ResultsParser._validate_and_clean_df. -/
def validate_and_clean_df (rng : Nat → ℚ) (df : DF) : DF :=
  fillnaRequired (addMissingCols rng df)

/-- A key lookup in a row mapping. -/
def lookupKey (r : List (String × Cell)) (k : String) : Option Cell :=
  (r.find? (fun p => p.1 == k)).map Prod.snd

/-- Column names of pd.DataFrame over a list of row mappings: union of the keys
in order of first appearance (each mapping has distinct keys, as Python dicts do). -/
def listColNames (rows : List (List (String × Cell))) : List String :=
  rows.foldl (fun acc r => acc ++ ((r.map Prod.fst).filter (fun k => !(acc.contains k)))) []

/-- pd.DataFrame(list-of-dicts), as used by ResultsParser._list_to_df; rows
missing a key get a null.  pd.DataFrame([]) is the empty 0-row 0-column frame. -/
def list_to_df (rows : List (List (String × Cell))) : DF :=
  { nrows := rows.length
    cols := (listColNames rows).map
      (fun k => (k, rows.map (fun r => (lookupKey r k).getD Cell.null))) }

/-- ResultsParser._dict_to_df: pd.DataFrame([data]). -/
def dict_to_df (m : List (String × Cell)) : DF := list_to_df [m]

/-- The raw input shapes accepted by parse_cv_results.  Sequences are modelled as
sequences of row mappings (the shape the data source contract produces). -/
inductive RawInput where
  | absent
  | table (df : DF)
  | mapping (m : List (String × Cell))
  | sequence (rows : List (List (String × Cell)))
  | other
deriving DecidableEq

/-- ResultsParser.parse_cv_results.  The internal conversions of this model do
not raise, so the outer try/except fallback branch is not reachable here. -/
def parse_cv_results (rng : Nat → ℚ) : RawInput → DF
  | RawInput.absent => create_default_df rng
  | RawInput.table df => validate_and_clean_df rng df
  | RawInput.mapping m => dict_to_df m
  | RawInput.sequence rows => list_to_df rows
  | RawInput.other => create_default_df rng

/-- Canonical table check: the four baseline columns are present and no cell of
any column is null. -/
def isCanonical (df : DF) : Bool :=
  (required_columns.all (fun c => (getColList df.cols c).isSome)) &&
  (df.cols.all (fun c => c.2.all (fun x => !x.isNull)))

/-- A column is fillable when it is absent, or present with at least one
numeric cell (so its mean is not NaN). -/
def colFillable (df : DF) (name : String) : Bool :=
  match getCol df name with
  | none => true
  | some cells => !(numCells cells).isEmpty

/-! ## LLM engine (src/llm_engine.py) -/

/-- The additional_request mapping built by _check_data_requirements. -/
structure AdditionalRequest where
  extend_date_range : Bool
  metrics : List String
deriving DecidableEq

/-- The LLMResponse dataclass with its source defaults. -/
structure LLMResponse where
  content : String
  needs_more_data : Bool := false
  additional_request : Option AdditionalRequest := none
  suggested_questions : Option (List String) := none
deriving DecidableEq

/-- The needs_more_indicators list of _check_data_requirements. -/
def needs_more_indicators : List String :=
  ["need more data", "additional information required", "insufficient data",
   "historical data would be helpful"]

/-- APILLMEngine._check_data_requirements. -/
def check_data_requirements (response : String) : Bool × Option AdditionalRequest :=
  let lowered := pyLower response
  let needs_more := needs_more_indicators.any (fun ind => strContains lowered ind)
  let additional_request : Option AdditionalRequest :=
    if needs_more && strContains lowered "historical" then
      some { extend_date_range := true, metrics := ["NDVI", "soil_moisture"] }
    else none
  (needs_more, additional_request)

/-- APILLMEngine._clean_response. -/
def clean_response (response : String) : String :=
  let r1 := (pySplit response "[INST]").headD ""
  let r2 := (pySplit r1 "<<SYS>>").getLastD ""
  let r3 := (pySplit r2 "<</SYS>>").getLastD ""
  pyStrip (pyReplace (pyReplace r3 "</s>" "") "<s>" "")

/-- APILLMEngine.chat_complete, given the raw backend reply text. -/
def chat_complete (raw : String) : LLMResponse :=
  { content := clean_response raw }

/-- APILLMEngine._generate_follow_up_questions (parameterized by context location). -/
def generate_follow_up_questions (location : String) : List String :=
  ["Would you like to see a detailed analysis of specific areas in " ++ location ++ "?",
   "Should we analyze any other metrics for this field?",
   "Would you like to compare this with historical data?"]

/-- APILLMEngine.analyze_results, given the textual rendering of the results
table, the context location and the raw backend reply. -/
def analyze_results (results_text location raw : String) : LLMResponse :=
  let cleaned := clean_response raw
  let final := "\nRaw CV Results:\n" ++ results_text ++ "\n\nBrief Analysis:\n" ++ cleaned ++ "\n"
  let nm := check_data_requirements cleaned
  { content := final
    needs_more_data := nm.1
    additional_request := nm.2
    suggested_questions := if nm.1 then none else some (generate_follow_up_questions location) }

/-! ## Workflow step generate_llm_insights (src/main.py) -/

/-- A keyword-argument value for event construction. -/
inductive KwVal where
  | bool (b : Bool)
  | str (s : String)
  | strList (xs : List String)
deriving DecidableEq

/-- The kwargs dict produced by expanding an additional_request with **. -/
def additional_request_kwargs (ar : AdditionalRequest) : List (String × KwVal) :=
  [("extend_date_range", KwVal.bool ar.extend_date_range),
   ("metrics", KwVal.strList ar.metrics)]

/-- Construction CVRequest(**kwargs).  Modelled from the pydantic semantics of
the llama_index Event subclass CVRequest of src/main.py: its declared fields
location, date_range, metrics and crop_type carry no defaults and are required;
kwargs missing any of them raise a ValidationError (unknown keys are accepted
as extra event data). -/
def mkCVRequest (kwargs : List (String × KwVal)) : Except String (List (String × KwVal)) :=
  let required := ["location", "date_range", "metrics", "crop_type"]
  let missing := required.filter (fun k => (kwargs.find? (fun p => p.1 == k)).isNone)
  if missing.isEmpty then Except.ok kwargs
  else Except.error ("validation error: missing " ++ joinSep ", " missing)

/-- The two non-raising outcomes of the generate_llm_insights step on a
CVResponse: a follow-up CVRequest (re-entering the analysis step) or a final
ConversationState carrying the follow-up questions. -/
inductive InsightStepOut where
  | followUp (req : List (String × KwVal))
  | conversation (follow_up_questions : Option (List String))
deriving DecidableEq

/-- MonitoredWorkflow.generate_llm_insights on a CVResponse: run analyze_results,
then on needs_more_data build CVRequest(**insights.additional_request) —
CVRequest(**None) raises a TypeError when additional_request is absent. -/
def generate_llm_insights (results_text location raw : String) :
    Except String InsightStepOut :=
  let insights := analyze_results results_text location raw
  if insights.needs_more_data then
    match insights.additional_request with
    | some ar => (mkCVRequest (additional_request_kwargs ar)).map InsightStepOut.followUp
    | none => Except.error "TypeError: argument after ** must be a mapping, not NoneType"
  else
    Except.ok (InsightStepOut.conversation insights.suggested_questions)

/-! ## Session orchestrators (src/streamlit_app.py, src/main.py) -/

/-- The pieces of Streamlit session state touched by process_message. -/
structure TurnState where
  messages : List (String × String)
  workflow_steps : List (String × String)
deriving DecidableEq

/-- StreamlitUI.update_workflow_status: append a step entry. -/
def addStep (st : TurnState) (step status : String) : TurnState :=
  { st with workflow_steps := st.workflow_steps ++ [(step, status)] }

/-- Append a chat message. -/
def addMessage (st : TurnState) (role content : String) : TurnState :=
  { st with messages := st.messages ++ [(role, content)] }

/-- The try-block of StreamlitUI.process_message.  The three network-bound
stages are oracles that either return a value or raise; a raise carries the
session state as updated so far.  Workflow detail payloads are not modelled. -/
def process_message_try (st : TurnState) (parseR : Except String ParseOutcome)
    (cvR : Except String RawInput) (insightR : Except String LLMResponse)
    (rng : Nat → ℚ) : Except (String × TurnState) TurnState :=
  let st1 := addStep st "1. Parsing user prompt" "pending"
  match parseR with
  | Except.error e => Except.error (e, st1)
  | Except.ok request =>
    let st2 := addStep st1 "1. Parsing user prompt" "complete"
    match request with
    | ParseOutcome.inputRequired pfx =>
      Except.ok (addMessage (addStep st2 "2. Request needs clarification" "complete")
        "assistant" pfx)
    | ParseOutcome.parsed _ =>
      let st3 := addStep st2 "2. Computer Vision Analysis" "pending"
      match cvR with
      | Except.error e => Except.error (e, st3)
      | Except.ok results =>
        let st4 := addStep st3 "2. Computer Vision Analysis" "complete"
        let st5 := addStep st4 "3. Processing CV Results" "pending"
        let _parsed_results := parse_cv_results rng results
        let st6 := addStep st5 "3. Processing CV Results" "complete"
        let st7 := addStep st6 "4. Generating Analysis" "pending"
        match insightR with
        | Except.error e => Except.error (e, st7)
        | Except.ok insights =>
          let st8 := addStep st7 "4. Generating Analysis" "complete"
          let st9 := addStep st8 "5. Ready for follow-up questions" "complete"
          Except.ok (addMessage st9 "assistant" insights.content)

/-- StreamlitUI.process_message: reset the workflow steps, append the user
message, run the try-block, and on any exception record an error-status entry
and a plain-text assistant error reply.  The Except return type is the
propagation channel to the caller: an Except.error result would be an
uncaught exception. -/
def process_message (st : TurnState) (user_input : String)
    (parseR : Except String ParseOutcome) (cvR : Except String RawInput)
    (insightR : Except String LLMResponse) (rng : Nat → ℚ) : Except String TurnState :=
  let st0 := addMessage { st with workflow_steps := [] } "user" user_input
  match process_message_try st0 parseR cvR insightR rng with
  | Except.ok stOk => Except.ok stOk
  | Except.error (e, stErr) =>
    Except.ok (addMessage (addStep stErr "Error occurred" "error")
      "assistant" ("An error occurred: " ++ e))

/-- The outermost try/except of run_monitored_session in src/main.py: the body
(the event-streaming loop, abstracted here as an oracle) either finishes or
raises; the except clause logs the error and then executes a bare raise. -/
def run_monitored_session_catch (body : Except String Unit) : Except String Unit :=
  match body with
  | Except.ok u => Except.ok u
  | Except.error e => Except.error e

/-! ## Concrete inputs used by witnesses and counterexamples -/

/-- A fixed random oracle for closed evaluations. -/
def rng0 : Nat → ℚ := fun _ => 1/2

/-- Extraction reply with a whitespace-only (non-empty but blank) location. -/
def replyBlankLoc : ExtractReply := { location := some " " }

/-- Extraction reply with a blank location and an out-of-vocabulary metric. -/
def replyBlankLocBadMetric : ExtractReply :=
  { location := some " ", metrics := some ["Field_Area"] }

/-- A well-formed extraction reply. -/
def replyGood : ExtractReply :=
  { location := some "Field A23, Austin, Texas", metrics := some ["NDVI", "soil_moisture"] }

/-- An extraction reply whose location key is present but blank, with other keys set. -/
def replyBlankLocFull : ExtractReply :=
  { location := some "   ", date_range := some "last 60 days",
    metrics := some ["NDVI"], crop_type := some "corn",
    additional_context := some [("field", "A23")] }

/-- An extraction reply with a good location but an invalid metric entry. -/
def replyBadMetric : ExtractReply :=
  { location := some "Field A23, Austin, Texas", metrics := some ["Field_Area", "NDVI"] }

/-- A canonical single-row table. -/
def dfCanonical : DF :=
  { nrows := 1
    cols := [("date", [Cell.date 0]), ("ndvi", [Cell.num (1/2)]),
             ("soil_moisture", [Cell.num 30]), ("health_score", [Cell.num 80])] }

/-- A one-key row mapping, for the double-normalization counterexample. -/
def rowA : List (String × Cell) := [("a", Cell.num 1)]

/-- A table whose ndvi column is present with one numeric and one null cell. -/
def dfPartialNdvi : DF :=
  { nrows := 2, cols := [("ndvi", [Cell.num 1, Cell.null])] }

/-- A table whose ndvi column is present and entirely null. -/
def dfAllNullNdvi : DF :=
  { nrows := 1
    cols := [("date", [Cell.date 0]), ("ndvi", [Cell.null]),
             ("soil_moisture", [Cell.num 25]), ("health_score", [Cell.num 70])] }

/-- A narrative that triggers both the needs-more-data heuristic and the
historical condition. -/
def rawNeedy : String := "Insufficient data; historical data would be helpful."

set_option maxRecDepth 8192

/-! ## Lemmas about the prompt handler -/

/-- A missing or blank location makes _validate_parsing return the location
clarification message. -/
theorem validate_parsing_of_blank (r : ExtractReply) (h : hasNonBlankLocation r = false) :
    validate_parsing r = some "I need a specific location to analyze. Where should I look?" := by
  unfold validate_parsing
  unfold hasNonBlankLocation at h
  cases hl : r.location with
  | none => rfl
  | some s =>
    rw [hl] at h
    have hs : pyStrip s = "" := by simpa using h
    simp [hs]

/-- A non-blank location and fully valid (or absent) metrics make
_validate_parsing succeed. -/
theorem validate_parsing_of_good (r : ExtractReply) (h2 : hasNonBlankLocation r = true)
    (h3 : metricsAllValid r = true) : validate_parsing r = none := by
  unfold validate_parsing
  unfold hasNonBlankLocation at h2
  cases hl : r.location with
  | none => rw [hl] at h2; cases h2
  | some s =>
    rw [hl] at h2
    have hs : ¬(pyStrip s = "") := by simpa using h2
    unfold metricsAllValid at h3
    cases hm : r.metrics with
    | none => simp [hs, hm]
    | some ms =>
      rw [hm] at h3
      simp only [List.all_eq_true] at h3
      have hmem : ∀ x ∈ ms, x ∈ valid_metrics := fun x hx => by simpa using h3 x hx
      simp [hs, hm]
      exact hmem

/-- A present metrics list with an out-of-vocabulary entry makes
_validate_parsing return the metrics clarification message. -/
theorem validate_parsing_of_bad_metric (r : ExtractReply) (h2 : hasNonBlankLocation r = true)
    (h3 : hasInvalidMetric r = true) :
    validate_parsing r = some ("I can only analyze these metrics: " ++
      joinSep ", " valid_metrics ++ ". Which would you like to use?") := by
  unfold validate_parsing
  unfold hasNonBlankLocation at h2
  cases hl : r.location with
  | none => rw [hl] at h2; cases h2
  | some s =>
    rw [hl] at h2
    have hs : ¬(pyStrip s = "") := by simpa using h2
    unfold hasInvalidMetric at h3
    cases hm : r.metrics with
    | none => rw [hm] at h3; cases h3
    | some ms =>
      rw [hm] at h3
      simp only [List.any_eq_true] at h3
      obtain ⟨a, ha, hbad⟩ := h3
      have hne : ¬(ms.filter (fun m => !(valid_metrics.contains m))).isEmpty = true := by
        intro he
        rw [List.isEmpty_iff] at he
        exact (List.filter_eq_nil_iff.1 he a ha) hbad
      simp [hs, hm, hne]
      exact ⟨a, ha, by simpa using hbad⟩

/-! ## Lemmas about column lookup and the normalizer -/

/-- Lookup on a cons cell. -/
theorem getColList_cons (c : String × List Cell) (cs : List (String × List Cell)) (name : String) :
    getColList (c :: cs) name = if c.1 == name then some c.2 else getColList cs name := by
  by_cases h : (c.1 == name) = true
  · simp [getColList, List.find?_cons_of_pos, h]
  · simp only [Bool.not_eq_true] at h
    simp [getColList, List.find?_cons_of_neg, h]

/-- Appending columns does not change a lookup that succeeds. -/
theorem getColList_append_of_some (cs : List (String × List Cell)) (q : List (String × List Cell))
    (name : String) (v : List Cell) (h : getColList cs name = some v) :
    getColList (cs ++ q) name = some v := by
  induction cs with
  | nil => simp [getColList] at h
  | cons c cs ih =>
    rw [getColList_cons] at h
    rw [List.cons_append, getColList_cons]
    by_cases hc : (c.1 == name) = true
    · rw [if_pos hc] at h; rw [if_pos hc]; exact h
    · rw [if_neg hc] at h; rw [if_neg hc]; exact ih h

/-- Lookup after appending one column, when the original lookup fails. -/
theorem getColList_append_of_none (cs : List (String × List Cell)) (q : String × List Cell)
    (name : String) (h : getColList cs name = none) :
    getColList (cs ++ [q]) name = if q.1 == name then some q.2 else none := by
  induction cs with
  | nil => rw [List.nil_append, getColList_cons]; rfl
  | cons c cs ih =>
    rw [getColList_cons] at h
    by_cases hc : (c.1 == name) = true
    · rw [if_pos hc] at h; cases h
    · rw [if_neg hc] at h
      rw [List.cons_append, getColList_cons, if_neg hc]
      exact ih h

/-- The addCol step for a different column name does not change a lookup. -/
theorem addCol_getColList_ne (rng : Nat → ℚ) (n k : Nat) (name name' : String)
    (cs : List (String × List Cell)) (h : (name == name') = false) :
    getColList (addCol rng n k name cs) name' = getColList cs name' := by
  unfold addCol
  by_cases hp : (cs.find? (fun p => p.1 == name)).isSome = true
  · rw [if_pos hp]
  · rw [if_neg hp]
    cases hc : getColList cs name' with
    | some v => exact getColList_append_of_some _ _ _ _ hc
    | none =>
      rw [getColList_append_of_none _ _ _ hc]
      simp [h]

/-- The addCol step for its own column name: the original column when present,
the synthesized one otherwise. -/
theorem addCol_getColList_self (rng : Nat → ℚ) (n k : Nat) (name : String)
    (cs : List (String × List Cell)) :
    getColList (addCol rng n k name cs) name =
      some ((getColList cs name).getD (synthCol rng k n name)) := by
  unfold addCol
  by_cases hp : (cs.find? (fun p => p.1 == name)).isSome = true
  · rw [if_pos hp]
    cases hf : cs.find? (fun p => p.1 == name) with
    | none => rw [hf] at hp; cases hp
    | some pr => simp [getColList, hf]
  · rw [if_neg hp]
    have hnone : getColList cs name = none := by
      cases hf : cs.find? (fun p => p.1 == name) with
      | none => simp [getColList, hf]
      | some pr => rw [hf] at hp; simp at hp
    rw [getColList_append_of_none _ _ _ hnone, hnone]
    simp

/-- The addCol step leaves a frame unchanged when the column is present. -/
theorem addCol_of_present (rng : Nat → ℚ) (n k : Nat) (name : String)
    (cs : List (String × List Cell)) (h : (getColList cs name).isSome = true) :
    addCol rng n k name cs = cs := by
  have hf : (cs.find? (fun p => p.1 == name)).isSome = true := by
    cases hfind : cs.find? (fun p => p.1 == name) with
    | none => simp [getColList, hfind] at h
    | some pr => rfl
  unfold addCol
  rw [if_pos hf]

/-- Lookup through the fillna map: the looked-up column is the filled one. -/
theorem fillna_getColList (cs : List (String × List Cell)) (name : String) :
    getColList (cs.map (fun c => (c.1, fillUp c.1 c.2))) name =
      (getColList cs name).map (fillUp name) := by
  induction cs with
  | nil => rfl
  | cons c cs ih =>
    rw [List.map_cons, getColList_cons, getColList_cons]
    by_cases hc : (c.1 == name) = true
    · have hce : c.1 = name := eq_of_beq hc
      rw [if_pos hc, if_pos hc, hce]
      rfl
    · rw [if_neg hc, if_neg hc]
      exact ih

/-- Filling a column whose mean exists leaves no null cell. -/
theorem fillCol_all_not_null_of_mean (cells : List Cell) (h : ¬ numCells cells = []) :
    (fillCol cells).all (fun c => !c.isNull) = true := by
  unfold fillCol colMean
  rw [if_neg (by simpa [List.isEmpty_iff] using h)]
  simp only [List.all_eq_true]
  intro c hc
  obtain ⟨x, hx, rfl⟩ := List.mem_map.1 hc
  cases x <;> simp [Cell.isNull]

/-- Filling a column without null cells leaves no null cell. -/
theorem fillCol_all_not_null_of_no_null (cells : List Cell)
    (h : cells.all (fun c => !c.isNull) = true) :
    (fillCol cells).all (fun c => !c.isNull) = true := by
  unfold fillCol
  cases hm : colMean cells with
  | none => exact h
  | some m =>
    simp only [List.all_eq_true]
    intro c hc
    obtain ⟨x, hx, rfl⟩ := List.mem_map.1 hc
    cases x <;> simp [Cell.isNull]

/-- Filling a column without null cells is a no-op. -/
theorem fillCol_of_no_null (cells : List Cell) (h : cells.all (fun c => !c.isNull) = true) :
    fillCol cells = cells := by
  unfold fillCol
  cases hm : colMean cells with
  | none => rfl
  | some m =>
    simp only [List.all_eq_true] at h
    have : ∀ c ∈ cells,
        (fun c => match c with | Cell.null => Cell.num m | c => c) c = id c := by
      intro c hc
      cases c with
      | null => exact absurd (h _ hc) (by simp [Cell.isNull])
      | date d => rfl
      | num q => rfl
    exact (List.map_congr_left this).trans (List.map_id cells)

/-- The synthesized numeric column has no null cell. -/
theorem synthCol_all_not_null (rng : Nat → ℚ) (k n : Nat) (name : String)
    (h : ¬ name = "date") : (synthCol rng k n name).all (fun c => !c.isNull) = true := by
  simp only [synthCol, if_neg h, List.all_eq_true]
  intro c hc
  obtain ⟨i, hi, rfl⟩ := List.mem_map.1 hc
  rfl

/-- Lookup of one of the three numeric baseline columns after cleaning: the
result is the original (or synthesized) column passed through fillCol. -/
theorem getCol_validate_numeric (rng : Nat → ℚ) (df : DF) (name : String)
    (h : name ∈ numeric_required) :
    ∃ k, getCol (validate_and_clean_df rng df) name =
      some (fillCol ((getColList df.cols name).getD (synthCol rng k df.nrows name))) := by
  have hmem : name = "ndvi" ∨ name = "soil_moisture" ∨ name = "health_score" := by
    simpa [numeric_required] using h
  unfold validate_and_clean_df fillnaRequired addMissingCols getCol
  rcases hmem with rfl | rfl | rfl
  · refine ⟨1, ?_⟩
    rw [fillna_getColList,
        addCol_getColList_ne _ _ _ _ _ _ (by decide),
        addCol_getColList_ne _ _ _ _ _ _ (by decide),
        addCol_getColList_self,
        addCol_getColList_ne _ _ _ _ _ _ (by decide)]
    simp [fillUp, numeric_required]
  · refine ⟨2, ?_⟩
    rw [fillna_getColList,
        addCol_getColList_ne _ _ _ _ _ _ (by decide),
        addCol_getColList_self,
        addCol_getColList_ne _ _ _ _ _ _ (by decide),
        addCol_getColList_ne _ _ _ _ _ _ (by decide)]
    simp [fillUp, numeric_required]
  · refine ⟨3, ?_⟩
    rw [fillna_getColList,
        addCol_getColList_self,
        addCol_getColList_ne _ _ _ _ _ _ (by decide),
        addCol_getColList_ne _ _ _ _ _ _ (by decide),
        addCol_getColList_ne _ _ _ _ _ _ (by decide)]
    simp [fillUp, numeric_required]

/-! ## Claim C1 -/

/-- C1, amended: for every extraction reply that is valid JSON with no error
key, a location that is non-blank after stripping whitespace, and every entry
of its metrics list (when present) inside the vocabulary, parse_user_request
returns a ParsedRequest whose location, date_range, metrics, crop_type and
additional_context equal the values of the reply, with date_range defaulting to
last 30 days, metrics defaulting to the default set and additional_context
defaulting to the empty mapping when those keys are omitted. -/
theorem c1_parse_success_amended (reply : ExtractReply) (h1 : reply.error = none)
    (h2 : hasNonBlankLocation reply = true) (h3 : metricsAllValid reply = true) :
    parse_user_request (some reply) = ParseOutcome.parsed
      { location := reply.location.getD ""
        date_range := some (reply.date_range.getD "last 30 days")
        metrics := reply.metrics.getD default_metrics
        crop_type := reply.crop_type
        additional_context := reply.additional_context.getD [] } := by
  have hv := validate_parsing_of_good reply h2 h3
  simp [parse_user_request, h1, hv]

/-- Witness for C1 at a concrete well-formed reply. -/
theorem c1_parse_success_witness :
    replyGood.error = none ∧ hasNonBlankLocation replyGood = true ∧
    metricsAllValid replyGood = true ∧
    parse_user_request (some replyGood) = ParseOutcome.parsed
      { location := "Field A23, Austin, Texas", date_range := some "last 30 days",
        metrics := ["NDVI", "soil_moisture"], crop_type := none,
        additional_context := [] } :=
  ⟨rfl, by decide, by decide, c1_parse_success_amended replyGood rfl (by decide) (by decide)⟩

/-- Counterexample to C1 as stated: the reply whose location is the non-empty
string of one space satisfies the stated premises (valid JSON, no error key,
non-empty location, no metrics entry outside the vocabulary), yet
parse_user_request returns a clarification, not a ParsedRequest. -/
theorem c1_blank_location_cex :
    parse_user_request (some replyBlankLoc) = ParseOutcome.inputRequired
      "Could you please clarify: I need a specific location to analyze. Where should I look?" := by
  decide

/-! ## Claim C2 -/

/-- C2, evaluation at the failing input: for the empty sequence the normalizer
returns the empty 0-row 0-column table, not the 10-row default table it
returns for an absent input. -/
theorem c2_empty_sequence_eval :
    parse_cv_results rng0 (RawInput.sequence []) = { nrows := 0, cols := [] } ∧
    (parse_cv_results rng0 RawInput.absent).nrows = 10 := by
  exact ⟨by decide, by decide⟩

/-! ## Claim C3 -/

/-- C3: needs_more_data is true iff the lowered reply contains one of the four
trigger phrases, and additional_request is the fixed mapping exactly when
needs_more_data holds together with the historical substring, and is none in
every other case. -/
theorem c3_needs_more_data_iff (text : String) :
    ((check_data_requirements text).1 = true ↔
      ∃ p ∈ needs_more_indicators, strContains (pyLower text) p = true) ∧
    ((check_data_requirements text).2 =
        some { extend_date_range := true, metrics := ["NDVI", "soil_moisture"] } ↔
      ((check_data_requirements text).1 = true ∧
        strContains (pyLower text) "historical" = true)) ∧
    ((check_data_requirements text).2 = none ↔
      ¬((check_data_requirements text).1 = true ∧
        strContains (pyLower text) "historical" = true)) := by
  have har : (check_data_requirements text).2 =
      (if (check_data_requirements text).1 && strContains (pyLower text) "historical"
       then some { extend_date_range := true, metrics := ["NDVI", "soil_moisture"] }
       else none) := rfl
  refine ⟨?_, ?_, ?_⟩
  · simp [check_data_requirements, List.any_eq_true]
  · rw [har]
    by_cases h : ((check_data_requirements text).1 &&
        strContains (pyLower text) "historical") = true
    · rw [if_pos h]
      simp only [Bool.and_eq_true] at h
      exact ⟨fun _ => h, fun _ => rfl⟩
    · rw [if_neg h]
      simp only [Bool.and_eq_true] at h
      constructor
      · intro hc; simp at hc
      · intro hc; exact absurd hc h
  · rw [har]
    by_cases h : ((check_data_requirements text).1 &&
        strContains (pyLower text) "historical") = true
    · rw [if_pos h]
      simp only [Bool.and_eq_true] at h
      constructor
      · intro hc; simp at hc
      · intro hc; exact absurd h hc
    · rw [if_neg h]
      simp only [Bool.and_eq_true] at h
      exact ⟨fun _ => h, fun _ => rfl⟩

/-! ## Claim C4 -/

/-- C4, evaluation at the failing input: on a narrative containing
"insufficient data" and "historical", the insight step builds the follow-up
CVRequest from additional_request alone — the kwargs contain no location key
(no merge with the original request happens) — so the required-field
validation of the event fails and the step raises instead of performing a
follow-up round. -/
theorem c4_followup_construction_eval :
    generate_llm_insights "results" "Field A23, Austin, Texas" rawNeedy =
      Except.error "validation error: missing location, date_range, crop_type" ∧
    (additional_request_kwargs
        { extend_date_range := true, metrics := ["NDVI", "soil_moisture"] }).find?
      (fun p => p.1 == "location") = none := by
  exact ⟨by decide, by decide⟩

/-! ## Claim C5 -/

/-- C5, amended: the Streamlit turn handler process_message never propagates an
exception from the parsing, fetching, normalizing or generating stages: for
every combination of stage outcomes, including raising ones, it returns
normally with exactly the user message and one assistant reply appended. -/
theorem c5_process_message_never_raises (st : TurnState) (ui : String)
    (parseR : Except String ParseOutcome) (cvR : Except String RawInput)
    (insightR : Except String LLMResponse) (rng : Nat → ℚ) :
    ∃ stOut resp, process_message st ui parseR cvR insightR rng = Except.ok stOut ∧
      stOut.messages = st.messages ++ [("user", ui), ("assistant", resp)] := by
  unfold process_message process_message_try
  cases parseR with
  | error e =>
    refine ⟨_, "An error occurred: " ++ e, rfl, ?_⟩
    simp [addMessage, addStep]
  | ok request =>
    cases request with
    | inputRequired pfx =>
      refine ⟨_, pfx, rfl, ?_⟩
      simp [addMessage, addStep]
    | parsed r =>
      cases cvR with
      | error e =>
        refine ⟨_, "An error occurred: " ++ e, rfl, ?_⟩
        simp [addMessage, addStep]
      | ok results =>
        cases insightR with
        | error e =>
          refine ⟨_, "An error occurred: " ++ e, rfl, ?_⟩
          simp [addMessage, addStep]
        | ok insights =>
          refine ⟨_, insights.content, rfl, ?_⟩
          simp [addMessage, addStep]

/-- Counterexample to C5 as stated: the outermost catch-all of
run_monitored_session re-raises — a raising session body propagates to the
caller instead of being swallowed. -/
theorem c5_session_catch_reraises :
    run_monitored_session_catch (Except.error "boom") = Except.error "boom" := rfl

/-! ## Claim C6 -/

/-- C6, amended: the normalizer is the identity on already-canonical tables
(the four baseline columns present and no null cell), so re-normalizing is a
no-op for inputs already in table form; for mapping and sequence inputs the
conversion skips cleaning, and a second application is not a no-op. -/
theorem c6_canonical_idempotent (rng : Nat → ℚ) (df : DF) (h : isCanonical df = true) :
    parse_cv_results rng (RawInput.table df) = df := by
  obtain ⟨n, cols⟩ := df
  have hand : ((required_columns.all (fun c => (getColList cols c).isSome)) &&
      (cols.all (fun c => c.2.all (fun x => !x.isNull)))) = true := h
  rw [Bool.and_eq_true] at hand
  obtain ⟨hreq, hnull⟩ := hand
  rw [List.all_eq_true] at hreq hnull
  have hdate : (getColList cols "date").isSome = true := hreq "date" (by decide)
  have hndvi : (getColList cols "ndvi").isSome = true := hreq "ndvi" (by decide)
  have hsoil : (getColList cols "soil_moisture").isSome = true :=
    hreq "soil_moisture" (by decide)
  have hhealth : (getColList cols "health_score").isSome = true :=
    hreq "health_score" (by decide)
  show validate_and_clean_df rng ⟨n, cols⟩ = ⟨n, cols⟩
  unfold validate_and_clean_df addMissingCols
  rw [addCol_of_present _ _ _ _ _ hdate, addCol_of_present _ _ _ _ _ hndvi,
      addCol_of_present _ _ _ _ _ hsoil, addCol_of_present _ _ _ _ _ hhealth]
  unfold fillnaRequired
  have hcols : cols.map (fun c => (c.1, fillUp c.1 c.2)) = cols := by
    have hstep : ∀ c ∈ cols, (c.1, fillUp c.1 c.2) = id c := by
      intro c hc
      have hfc : fillUp c.1 c.2 = c.2 := by
        unfold fillUp
        by_cases hn : c.1 ∈ numeric_required
        · rw [if_pos hn]
          exact fillCol_of_no_null _ (hnull c hc)
        · rw [if_neg hn]
      rw [hfc]
      exact Prod.mk.eta
    exact (List.map_congr_left hstep).trans (List.map_id cols)
  rw [hcols]

/-- Witness for C6 at a concrete canonical table. -/
theorem c6_canonical_idempotent_witness :
    isCanonical dfCanonical = true ∧
    parse_cv_results rng0 (RawInput.table dfCanonical) = dfCanonical :=
  ⟨by decide, c6_canonical_idempotent rng0 dfCanonical (by decide)⟩

/-- Counterexample to the any-input half of C6: normalizing a one-key mapping
returns the raw one-column table (the mapping conversion skips cleaning), and
normalizing that output again adds the four baseline columns, so applying the
normalizer twice differs from applying it once. -/
theorem c6_double_normalize_cex :
    parse_cv_results rng0 (RawInput.table (parse_cv_results rng0 (RawInput.mapping rowA))) ≠
      parse_cv_results rng0 (RawInput.mapping rowA) := by
  decide

/-! ## Claim C7 -/

/-- C7, amended: for every table input and each of the three baseline numeric
columns, if the column is absent or has at least one numeric cell, the
normalized output contains that column with no null cell (absent columns are
synthesized from the default distribution, nulls are filled with the column
mean); a column that is present but entirely null keeps its nulls, and columns
outside the baseline set are not filled. -/
theorem c7_no_null_amended (rng : Nat → ℚ) (df : DF) (name : String)
    (h1 : name ∈ numeric_required) (h2 : colFillable df name = true) :
    ∃ cells, getCol (parse_cv_results rng (RawInput.table df)) name = some cells ∧
      cells.all (fun c => !c.isNull) = true := by
  obtain ⟨k, hk⟩ := getCol_validate_numeric rng df name h1
  have hname : ¬ name = "date" := by
    rcases (by simpa [numeric_required] using h1 :
      name = "ndvi" ∨ name = "soil_moisture" ∨ name = "health_score") with rfl | rfl | rfl <;>
      decide
  refine ⟨_, hk, ?_⟩
  cases hcol : getColList df.cols name with
  | none =>
    simp only [Option.getD_none]
    apply fillCol_all_not_null_of_no_null
    exact synthCol_all_not_null rng k df.nrows name hname
  | some cells0 =>
    have h2' : ¬ numCells cells0 = [] := by
      unfold colFillable getCol at h2
      rw [hcol] at h2
      simpa [List.isEmpty_iff] using h2
    simp only [Option.getD_some]
    exact fillCol_all_not_null_of_mean cells0 h2'

/-- Witness for C7 at a concrete table with a partially-null ndvi column. -/
theorem c7_no_null_witness :
    "ndvi" ∈ numeric_required ∧ colFillable dfPartialNdvi "ndvi" = true ∧
    ∃ cells, getCol (parse_cv_results rng0 (RawInput.table dfPartialNdvi)) "ndvi" = some cells ∧
      cells.all (fun c => !c.isNull) = true :=
  ⟨by decide, by decide, c7_no_null_amended rng0 dfPartialNdvi "ndvi" (by decide) (by decide)⟩

/-- Counterexample to C7 as stated: a table whose ndvi column is entirely null
comes back from the normalizer with that null intact (the column mean is NaN
and the fill is a no-op), so null numeric values survive. -/
theorem c7_all_null_column_cex :
    getCol (parse_cv_results rng0 (RawInput.table dfAllNullNdvi)) "ndvi" = some [Cell.null] := by
  decide

/-! ## Claim C8 -/

/-- C8: for every extraction reply that is valid JSON without an error key and
whose location key is missing or blank after stripping, parse_user_request
returns the location clarification (an InputRequiredEvent), never a
ParsedRequest, regardless of all other fields. -/
theorem c8_blank_location_clarifies (reply : ExtractReply) (h1 : reply.error = none)
    (h2 : hasNonBlankLocation reply = false) :
    parse_user_request (some reply) = ParseOutcome.inputRequired
      "Could you please clarify: I need a specific location to analyze. Where should I look?" := by
  have hv := validate_parsing_of_blank reply h2
  simp [parse_user_request, h1, hv]

/-- Witness for C8 at a concrete reply with a blank location and all other
fields populated. -/
theorem c8_blank_location_witness :
    replyBlankLocFull.error = none ∧ hasNonBlankLocation replyBlankLocFull = false ∧
    parse_user_request (some replyBlankLocFull) = ParseOutcome.inputRequired
      "Could you please clarify: I need a specific location to analyze. Where should I look?" :=
  ⟨rfl, by decide, c8_blank_location_clarifies replyBlankLocFull rfl (by decide)⟩

/-! ## Claim C9 -/

/-- C9, amended: for every extraction reply that is valid JSON without an error
key, has a location that is non-blank after stripping, and has a metrics list
with at least one entry outside the vocabulary, parse_user_request returns a
clarification whose message contains every word of the valid vocabulary. -/
theorem c9_invalid_metric_clarifies (reply : ExtractReply) (h1 : reply.error = none)
    (h2 : hasNonBlankLocation reply = true) (h3 : hasInvalidMetric reply = true) :
    ∃ msg, parse_user_request (some reply) = ParseOutcome.inputRequired msg ∧
      valid_metrics.all (fun v => strContains msg v) = true := by
  have hv := validate_parsing_of_bad_metric reply h2 h3
  refine ⟨"Could you please clarify: " ++ ("I can only analyze these metrics: " ++
    joinSep ", " valid_metrics ++ ". Which would you like to use?"), ?_, ?_⟩
  · simp [parse_user_request, h1, hv]
  · decide

/-- Witness for C9 at a concrete reply with a good location and an invalid
metric entry. -/
theorem c9_invalid_metric_witness :
    replyBadMetric.error = none ∧ hasNonBlankLocation replyBadMetric = true ∧
    hasInvalidMetric replyBadMetric = true ∧
    ∃ msg, parse_user_request (some replyBadMetric) = ParseOutcome.inputRequired msg ∧
      valid_metrics.all (fun v => strContains msg v) = true :=
  ⟨rfl, by decide, by decide,
    c9_invalid_metric_clarifies replyBadMetric rfl (by decide) (by decide)⟩

/-- Counterexample to C9 as stated: a reply with the non-empty but blank
location of one space and an out-of-vocabulary metric gets the location
clarification, whose message does not enumerate the vocabulary (it does not
even contain the word NDVI). -/
theorem c9_blank_location_metrics_cex :
    parse_user_request (some replyBlankLocBadMetric) = ParseOutcome.inputRequired
      "Could you please clarify: I need a specific location to analyze. Where should I look?" ∧
    strContains
      "Could you please clarify: I need a specific location to analyze. Where should I look?"
      "NDVI" = false := by
  exact ⟨by decide, by decide⟩

/-! ## Claim C10 -/

/-- C10: for every raw backend reply, chat_complete returns an LLMResponse with
needs_more_data false, no additional_request and no suggested_questions: the
analysis-path heuristics are never applied on the freeform chat path. -/
theorem c10_chat_complete_no_heuristics (raw : String) :
    (chat_complete raw).needs_more_data = false ∧
    (chat_complete raw).additional_request = none ∧
    (chat_complete raw).suggested_questions = none :=
  ⟨rfl, rfl, rfl⟩

end AgriViewer
